import Mathlib

/-!
Verification of the HireMate behavioral event → metrics → fit-score pipeline.

The definitions below are a shallow embedding of the Python source:
  backend/app/services/live_metrics_service.py
  backend/app/services/population_stats_service.py
  backend/app/services/event_service.py
Python floats are modelled as exact rationals (ℚ); Python `round` is
modelled with banker rounding (`pyRound`), and Python `int(...)` with
truncation toward zero (`pyTrunc`).  Dict reads `d.get(k, default)` on
keys that a producer never writes are modelled by `Option` fields set to
`none` by that producer.
-/

namespace HireMate

/-- Python 3 `round(x)`: round half to even (banker rounding) — the
nearest integer, with an exact half going to the even neighbour. -/
def pyRound (q : ℚ) : ℤ :=
  if q - ⌊q⌋ < 1/2 then ⌊q⌋
  else if 1/2 < q - ⌊q⌋ then ⌊q⌋ + 1
  else if ⌊q⌋ % 2 = 0 then ⌊q⌋ else ⌊q⌋ + 1

/-- Python 3 `round(x, 1)`: banker rounding at one decimal place. -/
def pyRound1 (q : ℚ) : ℚ := (pyRound (q * 10) : ℚ) / 10

/-- Python 3 `round(x, 2)`: banker rounding at two decimal places. -/
def pyRound2 (q : ℚ) : ℚ := (pyRound (q * 100) : ℚ) / 100

/-- Python `int(x)` on a float: truncation toward zero. -/
def pyTrunc (q : ℚ) : ℤ := if 0 ≤ q then ⌊q⌋ else ⌈q⌉

/- ----------------------------------------------------------------------
   Data model: per-task metrics as produced by `_compute_per_task_metrics`.
   A task with no events yields a minimal dict; its missing keys are read
   downstream via `.get` with defaults 0 / "" — modelled by the zero /
   `none` defaults below.  `observed_pattern` is absent from the minimal
   dict, hence an `Option`.
   ---------------------------------------------------------------------- -/

/-- Values of `observed_pattern` assigned by `_compute_per_task_metrics`. -/
inductive Pattern where
  | direct | iterative | deliberative | balanced
deriving DecidableEq, Repr

/-- One entry of the `per_task_metrics` list (the fields read by the
metric/score functions under verification). -/
structure TaskMetric where
  time_spent_seconds : ℚ := 0
  idle_time_seconds : ℚ := 0
  initial_selection_seconds : ℚ := 0
  decision_changes : ℕ := 0
  explanation_word_count : ℕ := 0
  explanation_detail_score : ℚ := 0
  observed_pattern : Option Pattern := none
  is_completed : Bool := false
  is_correct : Bool := false
  is_skipped : Bool := false
  focus_loss_count : ℕ := 0
  paste_count : ℕ := 0
  copy_count : ℕ := 0
  idle_event_count : ℕ := 0
deriving DecidableEq, Repr

/-- The dict returned by `_compute_aggregate_metrics` (numeric fields; the
display-only `speed_context` / label strings are omitted).
`decision_firmness` is an `Option` because `_compute_overall_fit_score`
reads that key with `.get("decision_firmness", 0)` although
`_compute_aggregate_metrics` never writes it. -/
structure AggregateMetrics where
  total_time_seconds : ℚ := 0
  total_changes : ℕ := 0
  avg_initial_selection : ℚ := 0
  avg_idle_time : ℚ := 0
  idle_time_level : ℚ := 0
  total_explanation_words : ℕ := 0
  reasoning_depth : ℚ := 0
  cheating_resilience : ℤ := 100
  tasks_completed : ℕ := 0
  focus_loss_count : ℕ := 0
  paste_count : ℕ := 0
  copy_count : ℕ := 0
  decision_firmness : Option ℚ := none
deriving DecidableEq, Repr

/-- Embeds `_compute_aggregate_metrics(per_task_metrics, total_time)`. -/
def computeAggregateMetrics (per_task : List TaskMetric) (total_time : ℚ) :
    AggregateMetrics :=
  if per_task = [] then
    { total_time_seconds := total_time }
  else
    let n : ℚ := per_task.length
    let total_changes := (per_task.map (·.decision_changes)).sum
    let total_idle := (per_task.map (·.idle_time_seconds)).sum
    let selection_times := per_task.map (·.initial_selection_seconds)
    let explanation_details := per_task.map (·.explanation_detail_score)
    let total_words := (per_task.map (·.explanation_word_count)).sum
    let tasks_completed := (per_task.filter (·.is_completed)).length
    let avg_initial_selection := selection_times.sum / n
    let avg_idle_time := total_idle / n
    let reasoning_depth := explanation_details.sum / n
    let total_focus : ℕ := (per_task.map (·.focus_loss_count)).sum
    let total_pastes : ℕ := (per_task.map (·.paste_count)).sum
    let total_copies : ℕ := (per_task.map (·.copy_count)).sum
    let resilience : ℤ :=
      max 0 (100 - 10 * (total_focus : ℤ) - 20 * total_pastes - 5 * total_copies)
    { total_time_seconds := total_time
      total_changes := total_changes
      avg_initial_selection := pyRound2 avg_initial_selection
      avg_idle_time := pyRound2 avg_idle_time
      idle_time_level := pyRound1 avg_idle_time
      total_explanation_words := total_words
      reasoning_depth := pyRound2 (reasoning_depth * 100)
      cheating_resilience := resilience
      tasks_completed := tasks_completed
      focus_loss_count := total_focus
      paste_count := total_pastes
      copy_count := total_copies
      decision_firmness := none }

/- ----------------------------------------------------------------------
   Skill profile (radar chart), `_compute_skill_profile`.
   THRESHOLDS: fast_decision = 15, slow_decision = 45, high_changes = 4.
   ---------------------------------------------------------------------- -/

/-- The five axis scores of the skill profile.  The source returns each of
them twice (behavioral name and legacy name) with identical values; the
`evidence` drill-down objects repeat the same clamped scores and are
omitted here. -/
structure SkillProfile where
  task_completion : ℤ := 0
  selection_speed : ℤ := 0
  deliberation_pattern : ℤ := 0
  option_exploration : ℤ := 0
  risk_preference : ℤ := 0
deriving DecidableEq, Repr

/-- Embeds `_compute_skill_profile(aggregate_metrics, per_task_metrics)`. -/
def computeSkillProfile (agg : AggregateMetrics) (per_task : List TaskMetric) :
    SkillProfile :=
  if per_task = [] then {}
  else
    let avg_sel := agg.avg_initial_selection
    let total_changes := agg.total_changes
    let reasoning_depth := agg.reasoning_depth
    let total_tasks : ℚ := per_task.length
    let completion_rate : ℚ :=
      if 0 < per_task.length then (agg.tasks_completed : ℚ) / total_tasks else 0
    let task_completion : ℤ :=
      pyTrunc (min 100 (completion_rate * 60 + reasoning_depth / 2))
    let selection_speed_score : ℚ :=
      if avg_sel < 15 then 90 + 10 * (1 - avg_sel / 15)
      else if avg_sel < 45 then 90 - ((avg_sel - 15) / (45 - 15)) * 40
      else max 20 (50 - (avg_sel - 45))
    let deliberation : ℤ :=
      pyTrunc (min 100 (reasoning_depth + completion_rate * 30))
    let option_exploration : ℤ :=
      if total_changes = 0 then 0
      else pyTrunc (min 100 ((min total_changes 8 : ℕ) * 12 : ℚ))
    let avg_idle := agg.avg_idle_time
    let risk : ℤ :=
      if 5 < avg_idle then pyTrunc (min 100 (50 + avg_idle * 5))
      else pyTrunc (max 30 (avg_idle * 10))
    { task_completion := min 100 (max 0 task_completion)
      selection_speed := min 100 (max 0 (pyTrunc selection_speed_score))
      deliberation_pattern := min 100 (max 0 deliberation)
      option_exploration := min 100 (max 0 option_exploration)
      risk_preference := min 100 (max 0 risk) }

/-- The caller in `get_live_dashboard_data`: when no task is completed
(`has_real_data` is false) an all-zero profile is returned instead of
calling `_compute_skill_profile`. -/
def liveSkillProfile (agg : AggregateMetrics) (per_task : List TaskMetric) :
    SkillProfile :=
  if 0 < agg.tasks_completed then computeSkillProfile agg per_task else {}

/- ----------------------------------------------------------------------
   Overall fit score, `_compute_overall_fit_score`.
   ---------------------------------------------------------------------- -/

/-- The skill-profile dict as read by `_compute_overall_fit_score` through
its legacy keys (`problem_solving`, `analytical_thinking`, `decision_speed`,
`creativity`, `risk_assessment`). -/
structure SkillScores where
  problem_solving : ℚ := 0
  analytical_thinking : ℚ := 0
  decision_speed : ℚ := 0
  creativity : ℚ := 0
  risk_assessment : ℚ := 0
deriving DecidableEq, Repr

/-- The legacy-key view of a computed skill profile (same values). -/
def SkillProfile.scores (sp : SkillProfile) : SkillScores :=
  { problem_solving := sp.task_completion
    analytical_thinking := sp.deliberation_pattern
    decision_speed := sp.selection_speed
    creativity := sp.option_exploration
    risk_assessment := sp.risk_preference }

/-- The `resume_comparison` dict as read by the fit score (only
`overall_score`). -/
structure ResumeComparison where
  overall_score : ℚ := 0
deriving DecidableEq, Repr

/-- The `behavioral_consistency_metrics` dict: event counters, built by the
callers as counts of `focus_lost` / `paste_detected` / `copy_detected` /
`idle_detected` events. -/
structure ConsistencyCounters where
  focus_loss_count : ℕ := 0
  paste_count : ℕ := 0
  copy_count : ℕ := 0
  long_idle_count : ℕ := 0
deriving DecidableEq, Repr

/-- Per-component breakdown entry: raw value, weight and contribution. -/
structure BreakdownEntry where
  raw : ℚ
  weight : ℚ
  contribution : ℚ
deriving DecidableEq, Repr

structure FitBreakdown where
  task_score : BreakdownEntry
  behavioral_score : BreakdownEntry
  skill_score : BreakdownEntry
  resume_alignment : BreakdownEntry
  /-- `behavioral_consistency_adjustment.value` (stored negated). -/
  adjustment_value : ℚ
  /-- `breakdown.behavioral_score.details.decision_firmness`. -/
  detail_decision_firmness : ℚ
deriving DecidableEq, Repr

structure FitResult where
  score : ℤ
  grade : String
  breakdown : FitBreakdown
deriving DecidableEq, Repr

/-- Task score component: completion and accuracy rates in percent,
clamped to [0,100] (the clamp is a no-op when completed ≤ total). -/
def fitTaskScore (per_task : List TaskMetric) (total_tasks : ℕ) : ℚ :=
  let tasks_completed := (per_task.filter (·.is_completed)).length
  let completion_rate : ℚ :=
    if 0 < total_tasks then (tasks_completed : ℚ) / (total_tasks : ℚ) * 100 else 0
  let correct := (per_task.filter (fun t => t.is_completed && t.is_correct)).length
  let accuracy_rate : ℚ :=
    if 0 < tasks_completed then (correct : ℚ) / (tasks_completed : ℚ) * 100 else 0
  min 100 (max 0 (completion_rate * (4/10) + accuracy_rate * (6/10)))

/-- Behavioral score component: firmness/continuity/quality weighted sum,
minus 5 per skipped task, clamped to [0,100].  `decision_firmness` is read
from the aggregate dict (defaulting to 0 when the key is absent). -/
def fitBehavioralScore (per_task : List TaskMetric) (agg : AggregateMetrics) : ℚ :=
  let skip_penalty : ℚ := ((per_task.filter (·.is_skipped)).length : ℚ) * 5
  let decision_firmness := agg.decision_firmness.getD 0
  let session_continuity : ℚ := max 0 (100 - min 100 ((agg.total_changes : ℚ) * 15))
  let response_quality : ℚ := 100 - min 100 agg.idle_time_level
  min 100 (max 0 (decision_firmness * (4/10) + session_continuity * (3/10) +
    response_quality * (3/10) - skip_penalty))

/-- Skill score component: mean of the five legacy keys, clamped. -/
def fitSkillScore (sp : SkillScores) : ℚ :=
  min 100 (max 0 ((sp.problem_solving + sp.analytical_thinking + sp.decision_speed +
    sp.creativity + sp.risk_assessment) / 5))

/-- Resume alignment component, clamped. -/
def fitResumeAlignment (resume : ResumeComparison) : ℚ :=
  min 100 (max 0 resume.overall_score)

/-- Behavioral consistency adjustment: per-component caps 3/3/2/2 and
overall cap 10. -/
def fitAdjustment (bc : ConsistencyCounters) : ℚ :=
  let penalty : ℚ :=
    min 3 ((bc.focus_loss_count : ℚ) * (1/2)) +
    min 3 ((bc.paste_count : ℚ) * (3/2)) +
    min 2 ((bc.copy_count : ℚ) * 2) +
    min 2 ((bc.long_idle_count : ℚ) * (1/2))
  min 10 penalty

/-- Grade bands of `_compute_overall_fit_score`. -/
def fitGrade (score : ℤ) : String :=
  if 90 ≤ score then "S"
  else if 80 ≤ score then "A"
  else if 70 ≤ score then "B"
  else if 60 ≤ score then "C"
  else "D"

/-- Embeds `_compute_overall_fit_score(per_task_metrics, aggregate_metrics,
skill_profile, resume_comparison, behavioral_consistency_metrics,
total_tasks)`.  Display-only strings (grade label/color, reasons,
formula, explanation) are omitted. -/
def computeOverallFitScore (per_task : List TaskMetric) (agg : AggregateMetrics)
    (sp : SkillScores) (resume : ResumeComparison) (bc : ConsistencyCounters)
    (total_tasks : ℕ) : FitResult :=
  let task_score := fitTaskScore per_task total_tasks
  let behavioral_score := fitBehavioralScore per_task agg
  let skill_score := fitSkillScore sp
  let resume_alignment := fitResumeAlignment resume
  let adjustment := fitAdjustment bc
  let weighted_task := task_score * (30/100)
  let weighted_behavioral := behavioral_score * (35/100)
  let weighted_skill := skill_score * (25/100)
  let weighted_resume := resume_alignment * (10/100)
  let raw_score := weighted_task + weighted_behavioral + weighted_skill + weighted_resume
  let final_score : ℤ := max 0 (pyRound (raw_score - adjustment))
  { score := final_score
    grade := fitGrade final_score
    breakdown :=
      { task_score := ⟨pyRound1 task_score, 30/100, pyRound1 weighted_task⟩
        behavioral_score := ⟨pyRound1 behavioral_score, 35/100, pyRound1 weighted_behavioral⟩
        skill_score := ⟨pyRound1 skill_score, 25/100, pyRound1 weighted_skill⟩
        resume_alignment := ⟨pyRound1 resume_alignment, 10/100, pyRound1 weighted_resume⟩
        adjustment_value := -(pyRound1 adjustment)
        detail_decision_firmness := pyRound1 (agg.decision_firmness.getD 0) } }

/- ----------------------------------------------------------------------
   Behavioral consistency (authenticity) analyzer,
   `compute_behavioral_consistency` in population_stats_service.py.
   ---------------------------------------------------------------------- -/

/-- A consistency flag (its long-form evidence texts are display-only and
omitted). -/
structure ConsistencyFlag where
  flag : String
  severity : String
  deduction : ℚ
deriving DecidableEq, Repr

/-- Result of `compute_behavioral_consistency`: score, flags, status and
`confidence_explanation.total_adjustments` (the summed deductions; the
`insufficient_data` branch carries no such key, modelled as 0). -/
structure ConsistencyResult where
  score : ℚ
  flags : List ConsistencyFlag
  status : String
  total_adjustments : ℚ
deriving DecidableEq, Repr

/-- Python float modulus `t % base` for positive `base`. -/
def pyMod (t b : ℚ) : ℚ := t - b * ⌊t / b⌋

/-- The check-1 trigger `cv < 0.1` where `cv = sqrt(variance)/mean`.
For `mean > 0` this is equivalent to `variance * 100 < mean²`, which
avoids an irrational square root. -/
def cvBelowTenPercent (variance mean : ℚ) : Prop :=
  variance * 100 < mean ^ 2

instance (variance mean : ℚ) : Decidable (cvBelowTenPercent variance mean) := by
  unfold cvBelowTenPercent; infer_instance

/-- Number of completed entries of a per-task metrics list. -/
def completedCount (per_task : List TaskMetric) : ℕ :=
  (per_task.filter (·.is_completed)).length

/- The flag checks of `compute_behavioral_consistency`, A/B/C then 1–5
in source order; every appended flag adds its own `deduction` to the
running total.  Two reads in the source target keys that
`_compute_per_task_metrics` never writes:
`m.get("first_decision_speed_seconds", 0)` (the produced key is
`initial_selection_seconds`) and `m.get("word_count", 0)` (the produced
key is `explanation_word_count`).  Both reads therefore always yield 0
on pipeline data; after the truthiness filters of the source, the
first-decision list contributes a vacuously true condition (check 2) and
the word-count list is empty (check 3). -/

/-- Check A: paste events → `min(15, pastes·5)`. -/
def flagsCheckA (ac : ConsistencyCounters) : List ConsistencyFlag :=
  if 0 < ac.paste_count then
    [⟨"rapid_text_entry", if 2 ≤ ac.paste_count then "medium" else "low",
      min 15 ((ac.paste_count : ℚ) * 5)⟩]
  else []

/-- Check B: focus losses beyond the first 3 → `min(10, (losses−3)·2)`. -/
def flagsCheckB (ac : ConsistencyCounters) : List ConsistencyFlag :=
  if 3 < ac.focus_loss_count then
    [⟨"window_navigation", if 6 ≤ ac.focus_loss_count then "medium" else "low",
      min 10 (((ac.focus_loss_count : ℚ) - 3) * 2)⟩]
  else []

/-- Check C: copy events → `min(8, copies·4)`. -/
def flagsCheckC (ac : ConsistencyCounters) : List ConsistencyFlag :=
  if 0 < ac.copy_count then
    [⟨"content_copied", "low", min 8 ((ac.copy_count : ℚ) * 4)⟩]
  else []

/-- Check 1: response-time coefficient of variation below 10% (zero
times are dropped by the truthiness filter of the source; requires ≥ 3 data
points and a positive mean) → flat 8. -/
def flagsCheck1 (per_task : List TaskMetric) : List ConsistencyFlag :=
  let times := (per_task.map (·.time_spent_seconds)).filter (· ≠ 0)
  if 3 ≤ times.length then
    let mean := times.sum / (times.length : ℚ)
    if 0 < mean then
      let variance := (times.map (fun t => (t - mean) ^ 2)).sum / (times.length : ℚ)
      if cvBelowTenPercent variance mean then
        [⟨"low_timing_variation", "low", 8⟩]
      else []
    else []
  else []

/-- Check 2: zero revisions everywhere → flat 10.  The second conjunct
in the source — all first-decision speeds under 5 s — reads the key
`first_decision_speed_seconds` that produced metrics never carry, so it
is vacuously true on pipeline data (see `consistencyFlags`). -/
def flagsCheck2 (per_task : List TaskMetric) : List ConsistencyFlag :=
  if (per_task.map (·.decision_changes)).all (· = 0) then
    [⟨"rapid_commitment_pattern", "low", 10⟩]
  else []

/-- Check 3: identical word counts across ≥ 3 explanations → flat 5.
The source reads the key `word_count` that produced metrics never carry
(they carry `explanation_word_count`), so the filtered list is always
empty on pipeline data and the check never fires. -/
def flagsCheck3 : List ConsistencyFlag :=
  let word_counts : List ℕ := []
  if 3 ≤ word_counts.length ∧ word_counts.dedup.length = 1 then
    [⟨"uniform_explanation_length", "low", 5⟩]
  else []

/-- At least 70% of the nonzero idle times exceed `b` and sit within 0.5 s of a
multiple of `b`. -/
def alignedTo (idle_times : List ℚ) (b : ℚ) : Prop :=
  (idle_times.length : ℚ) * (7/10) ≤
    ((idle_times.filter (fun t => b < t ∧ |pyMod t b| < 1/2)).length : ℚ)

instance (idle_times : List ℚ) (b : ℚ) : Decidable (alignedTo idle_times b) := by
  unfold alignedTo; infer_instance

/-- Check 4: pause times aligned to a 5/10/15-second grid → flat 5; the
source loops over the bases 5, 10, 15 and breaks after the first flag,
modelled as an if-chain (zero idle times dropped by truthiness). -/
def flagsCheck4 (per_task : List TaskMetric) : List ConsistencyFlag :=
  let idle_times := (per_task.map (·.idle_time_seconds)).filter (· ≠ 0)
  if 3 ≤ idle_times.length then
    if alignedTo idle_times 5 then [⟨"patterned_pauses", "low", 5⟩]
    else if alignedTo idle_times 10 then [⟨"patterned_pauses", "low", 5⟩]
    else if alignedTo idle_times 15 then [⟨"patterned_pauses", "low", 5⟩]
    else []
  else []

/-- Check 5: a single approach pattern across ≥ 4 tasks → flat 3 (tasks
whose metrics carry no pattern are dropped by the filter in the source). -/
def flagsCheck5 (per_task : List TaskMetric) : List ConsistencyFlag :=
  let patterns := per_task.filterMap (·.observed_pattern)
  if 4 ≤ patterns.length ∧ patterns.dedup.length = 1 then
    [⟨"single_approach_pattern", "low", 3⟩]
  else []

def consistencyFlags (per_task : List TaskMetric) (ac : ConsistencyCounters) :
    List ConsistencyFlag :=
  flagsCheckA ac ++ flagsCheckB ac ++ flagsCheckC ac ++ flagsCheck1 per_task ++
    flagsCheck2 per_task ++ flagsCheck3 ++ flagsCheck4 per_task ++
    flagsCheck5 per_task

/-- Embeds `compute_behavioral_consistency(per_task_metrics, anti_cheat_metrics)`:
score 100 / no flags / `insufficient_data` when the per-task list has
fewer than 2 entries, otherwise `score = max(0, 100 − deductions)` with
the flags of `consistencyFlags` and a status keyed on the score. -/
def computeBehavioralConsistency (per_task : List TaskMetric)
    (ac : ConsistencyCounters) : ConsistencyResult :=
  if per_task.length < 2 then
    { score := 100, flags := [], status := "insufficient_data", total_adjustments := 0 }
  else
    let flags := consistencyFlags per_task ac
    let deductions := (flags.map (·.deduction)).sum
    let score := max 0 (100 - deductions)
    let status :=
      if 85 ≤ score then "consistent_with_independent_work"
      else if 60 ≤ score then "some_observations_noted"
      else "review_recommended"
    { score := score, flags := flags, status := status, total_adjustments := deductions }

/- ----------------------------------------------------------------------
   Behavioral summary confidence, `_compute_behavioral_summary`.
   ---------------------------------------------------------------------- -/

/-- Count of one pattern among completed tasks (a completed task without
a pattern key defaults to `Balanced` via `.get("observed_pattern",
"Balanced")`). -/
def patternCount (completed : List TaskMetric) (p : Pattern) : ℕ :=
  (completed.filter (fun t => t.observed_pattern.getD .balanced = p)).length

/-- Models the Python `max(pattern_counts, key=pattern_counts.get)`: the first
pattern (in dict insertion order Direct, Iterative, Deliberative,
Balanced) attaining the maximal count. -/
def dominantPattern (completed : List TaskMetric) : Pattern :=
  let c := patternCount completed
  if c .iterative ≤ c .direct ∧ c .deliberative ≤ c .direct ∧ c .balanced ≤ c .direct then
    .direct
  else if c .deliberative ≤ c .iterative ∧ c .balanced ≤ c .iterative then .iterative
  else if c .balanced ≤ c .deliberative then .deliberative
  else .balanced

/-- Dominant-pattern coverage among completed tasks, in percent (exact,
before the rounding applied in the source). -/
def dominantCoveragePct (per_task : List TaskMetric) : ℚ :=
  let completed := per_task.filter (·.is_completed)
  if completed.length = 0 then 0
  else (patternCount completed (dominantPattern completed) : ℚ) / (completed.length : ℚ) * 100

/-- The `confidence_level` computed by `_compute_behavioral_summary`:
base level from the number of completed tasks, +10 bonus (capped at 95)
when the rounded dominant percentage is at least 70.  With no completed
task the waiting state carries `confidence_level = 0`. -/
def summaryConfidence (per_task : List TaskMetric) : ℤ :=
  let completed := per_task.filter (·.is_completed)
  let n := completed.length
  if n = 0 then 0
  else
    let dominant := dominantPattern completed
    let dominant_percentage : ℤ :=
      pyRound ((patternCount completed dominant : ℚ) / (n : ℚ) * 100)
    let base : ℤ :=
      if n = 1 then 25
      else if n = 2 then 50
      else if n = 3 then 75
      else min 95 (75 + ((n : ℤ) - 3) * 5)
    if 70 ≤ dominant_percentage then min 95 (base + 10) else base

/-- Modelled from the spec: the claimed closed form of the confidence
level — `n=1→25, n=2→50, n=3→75, n≥4→min(95, 75+5(n−3))`, plus 10
(capped at 95) when the dominant pattern is judged to cover at least
70%.  `d` is the rounded dominant percentage the trigger is tested on. -/
def specPatternConfidence (n : ℕ) (d : ℤ) : ℤ :=
  min 95
    ((if n = 1 then 25
      else if n = 2 then 50
      else if n = 3 then 75
      else min 95 (75 + 5 * ((n : ℤ) - 3))) +
     (if 70 ≤ d then 10 else 0))

/- ----------------------------------------------------------------------
   Population statistics, population_stats_service.py.
   ---------------------------------------------------------------------- -/

/-- A per-(metric, recruiter) population statistic.  The stored
`std_dev = sqrt(m2/n)` and the percentile-breakpoint cache are derived
display fields never read by the rank computation in `get_percentile` and are
omitted (the square root is irrational). -/
structure PopStat where
  count : ℕ
  mean : ℚ
  m2 : ℚ
  smin : ℚ
  smax : ℚ
  samples : List ℚ
deriving DecidableEq, Repr

/-- The insert branch of `update_population_stats` for a fresh metric. -/
def PopStat.init (x : ℚ) : PopStat :=
  { count := 1, mean := x, m2 := 0, smin := x, smax := x, samples := [x] }

/-- The Welford update branch of `update_population_stats`:
`n←n+1; delta←x−mean; mean←mean+delta/n; M2←M2+delta·(x−mean)`, and the
sample ring buffer keeps the last 1000 values. -/
def PopStat.update (s : PopStat) (x : ℚ) : PopStat :=
  let n : ℕ := s.count + 1
  let delta := x - s.mean
  let newMean := s.mean + delta / (n : ℚ)
  let delta2 := x - newMean
  let samples0 := s.samples ++ [x]
  let samples :=
    if 1000 < samples0.length then samples0.drop (samples0.length - 1000) else samples0
  { count := n, mean := newMean, m2 := s.m2 + delta * delta2,
    smin := min s.smin x, smax := max s.smax x, samples := samples }

/-- Invariant maintained by `update_population_stats` for every stored
stat: at least one sample was recorded and the ring buffer holds
`min(count, 1000)` samples. -/
def PopStat.wellFormed (s : PopStat) : Prop :=
  1 ≤ s.count ∧ s.samples.length = min s.count 1000

instance (s : PopStat) : Decidable s.wellFormed := by
  unfold PopStat.wellFormed; infer_instance

/-- Embeds `get_percentile(metric_name, value)`: `stats` is the stored record
for the (metric, recruiter) pair, or `none` when no record exists. -/
def getPercentile (stats : Option PopStat) (value : ℚ) : Option ℤ :=
  match stats with
  | none => none
  | some s =>
    if s.count < 10 then none
    else if s.samples = [] then none
    else
      let below := (s.samples.filter (· < value)).length
      some (pyTrunc ((below : ℚ) / (s.samples.length : ℚ) * 100))

/- ----------------------------------------------------------------------
   Event service, event_service.py.
   ---------------------------------------------------------------------- -/

inductive EventType where
  | task_started | option_viewed | option_selected | option_changed
  | reasoning_started | reasoning_updated | reasoning_submitted
  | task_completed | idle_detected | focus_lost | focus_gained
  | task_skipped | paste_detected | copy_detected
deriving DecidableEq, Repr

inductive AttemptStatus where
  | pending | in_progress | completed | expired | locked
deriving DecidableEq, Repr

structure Attempt where
  status : AttemptStatus
  task_ids : List String
deriving DecidableEq, Repr

/-- A stored event document (the fields governing sequencing and
validation; payload/timestamps/metadata do not influence them). -/
structure EventRec where
  attempt_id : String
  task_id : String
  event_type : EventType
  sequence_number : ℕ
deriving DecidableEq, Repr

/-- Incoming `EventCreate` data. -/
structure EventCreate where
  task_id : String
  event_type : EventType
deriving DecidableEq, Repr

/-- The store: attempts by id, and events in insertion order. -/
structure Store where
  attempts : List (String × Attempt)
  events : List EventRec
deriving DecidableEq, Repr

inductive LogError where
  | attemptNotFound | attemptLocked | invalidEvent
deriving DecidableEq, Repr

/-- The `VALID_TRANSITIONS` table: the permitted followers of each event type
within one task (`none` = no previous event). -/
def validTransitions : Option EventType → List EventType
  | none => [.task_started]
  | some .task_started =>
      [.option_viewed, .option_selected, .reasoning_started, .idle_detected, .focus_lost]
  | some .option_viewed =>
      [.option_viewed, .option_selected, .reasoning_started, .idle_detected,
       .focus_lost, .focus_gained]
  | some .option_selected =>
      [.option_changed, .option_viewed, .reasoning_started, .task_completed,
       .idle_detected, .focus_lost, .focus_gained]
  | some .option_changed =>
      [.option_changed, .option_viewed, .reasoning_started, .task_completed,
       .idle_detected, .focus_lost, .focus_gained]
  | some .reasoning_started =>
      [.reasoning_updated, .reasoning_submitted, .option_viewed, .option_changed,
       .idle_detected, .focus_lost, .focus_gained]
  | some .reasoning_updated =>
      [.reasoning_updated, .reasoning_submitted, .option_viewed, .option_changed,
       .idle_detected, .focus_lost, .focus_gained]
  | some .reasoning_submitted =>
      [.task_completed, .option_viewed, .option_changed, .idle_detected,
       .focus_lost, .focus_gained]
  | some .task_completed => [.task_started]
  | some .idle_detected =>
      [.option_viewed, .option_selected, .option_changed, .reasoning_started,
       .reasoning_updated, .focus_lost, .focus_gained]
  | some .focus_lost => [.focus_gained, .idle_detected]
  | some .focus_gained =>
      [.option_viewed, .option_selected, .option_changed, .reasoning_started,
       .reasoning_updated, .reasoning_submitted, .task_completed, .idle_detected,
       .focus_lost]
  | some .task_skipped => []
  | some .paste_detected => []
  | some .copy_detected => []

/-- The sequence numbers already stored for one attempt, in insertion
order. -/
def attemptSeqs (s : Store) (aid : String) : List ℕ :=
  (s.events.filter (fun e => e.attempt_id = aid)).map (·.sequence_number)

/-- The type of the last (highest-sequence) event stored for one
(attempt, task) pair — fetched by `log_event` for transition validation. -/
def lastEventType (s : Store) (aid tid : String) : Option EventType :=
  let evs := s.events.filter (fun e => e.attempt_id = aid ∧ e.task_id = tid)
  (evs.foldl
    (fun acc e =>
      match acc with
      | none => some e
      | some b => if b.sequence_number ≤ e.sequence_number then some e else some b)
    none).map (·.event_type)

/-- Embeds `log_event(attempt_id, event_data)`.  The source fetches the last
event type for state-transition validation but then performs no check
with it ("relaxed" validation); the next sequence number is the highest
existing sequence number for the attempt plus one, or 1 when the attempt
has no events. -/
def logEvent (s : Store) (aid : String) (e : EventCreate) :
    Except LogError (EventRec × Store) :=
  match s.attempts.lookup aid with
  | none => .error .attemptNotFound
  | some a =>
    if a.status ≠ .in_progress then .error .attemptLocked
    else if e.task_id ∉ a.task_ids then .error .invalidEvent
    else
      let _last := lastEventType s aid e.task_id
      let seqs := attemptSeqs s aid
      let seq : ℕ := match seqs with | [] => 1 | _ => seqs.foldr max 0 + 1
      let ev : EventRec := ⟨aid, e.task_id, e.event_type, seq⟩
      .ok (ev, { s with events := s.events ++ [ev] })

/- ----------------------------------------------------------------------
   Spec-side definitions (written from the spec/claim wording, to be
   compared with the embedded source functions).
   ---------------------------------------------------------------------- -/

/-- From the spec: `TaskScore = 0.4·completion_rate% + 0.6·accuracy_rate%`
(stated without the clamp the source applies to this component). -/
def specTaskScore (per_task : List TaskMetric) (total_tasks : ℕ) : ℚ :=
  let tasks_completed := (per_task.filter (·.is_completed)).length
  let completion_rate : ℚ :=
    if 0 < total_tasks then (tasks_completed : ℚ) / (total_tasks : ℚ) * 100 else 0
  let correct := (per_task.filter (fun t => t.is_completed && t.is_correct)).length
  let accuracy_rate : ℚ :=
    if 0 < tasks_completed then (correct : ℚ) / (tasks_completed : ℚ) * 100 else 0
  completion_rate * (4/10) + accuracy_rate * (6/10)

/-- From the spec: `ConsistencyAdjustment = min(10, 0.5·focus_losses +
1.5·pastes + 2·copies + 0.5·long_idles)` with component caps 3/3/2/2. -/
def specAdjustment (bc : ConsistencyCounters) : ℚ :=
  min 10
    (min 3 ((bc.focus_loss_count : ℚ) * (1/2)) +
     min 3 ((bc.paste_count : ℚ) * (3/2)) +
     min 2 ((bc.copy_count : ℚ) * 2) +
     min 2 ((bc.long_idle_count : ℚ) * (1/2)))

/-- From the spec: grade bands S≥90, A≥80, B≥70, C≥60, D otherwise. -/
def specGrade (score : ℤ) : String :=
  if 90 ≤ score then "S"
  else if 80 ≤ score then "A"
  else if 70 ≤ score then "B"
  else if 60 ≤ score then "C"
  else "D"

/-- From the spec (C2): `decision_firmness = max(0, 100 −
min(100, avg_changes_per_task · (100/4)))`, the average change count
taken over the completed tasks of the attempt (as the dashboard metric of the
same name computes it). -/
def specDecisionFirmness (per_task : List TaskMetric) : ℚ :=
  let tasks_completed := completedCount per_task
  let total_changes : ℕ := (per_task.map (·.decision_changes)).sum
  let avg : ℚ :=
    if 0 < tasks_completed then (total_changes : ℚ) / (tasks_completed : ℚ) else 0
  max 0 (100 - min 100 (avg * (100/4)))

/-- From the spec (C2): `BehavioralScore = 0.4·decision_firmness +
0.3·session_continuity + 0.3·response_quality`, reduced 5 points per
skipped task and clamped to [0,100], with the firmness of
`specDecisionFirmness`. -/
def specBehavioralScore (per_task : List TaskMetric) (agg : AggregateMetrics) : ℚ :=
  let skip_penalty : ℚ := ((per_task.filter (·.is_skipped)).length : ℚ) * 5
  let session_continuity : ℚ := max 0 (100 - min 100 ((agg.total_changes : ℚ) * 15))
  let response_quality : ℚ := 100 - min 100 agg.idle_time_level
  min 100 (max 0 (specDecisionFirmness per_task * (4/10) +
    session_continuity * (3/10) + response_quality * (3/10) - skip_penalty))

/-- Sum of the four breakdown contributions plus the (negative)
adjustment value — the explainability round-trip quantity of C3. -/
def breakdownSum (b : FitBreakdown) : ℚ :=
  b.task_score.contribution + b.behavioral_score.contribution +
    b.skill_score.contribution + b.resume_alignment.contribution + b.adjustment_value

/- ----------------------------------------------------------------------
   Numeric lemmas about the Python rounding/truncation models.
   ---------------------------------------------------------------------- -/

lemma pyRound_intCast (n : ℤ) : pyRound (n : ℚ) = n := by
  unfold pyRound
  rw [Int.floor_intCast]
  norm_num

lemma pyRound_zero : pyRound 0 = 0 := by
  simpa using pyRound_intCast 0

lemma floor_le_pyRound (q : ℚ) : ⌊q⌋ ≤ pyRound q := by
  unfold pyRound
  split_ifs <;> omega

lemma pyRound_le_floor_add_one (q : ℚ) : pyRound q ≤ ⌊q⌋ + 1 := by
  unfold pyRound
  split_ifs <;> omega

lemma le_pyRound (n : ℤ) (q : ℚ) (h : (n : ℚ) ≤ q) : n ≤ pyRound q :=
  le_trans (Int.le_floor.mpr h) (floor_le_pyRound q)

lemma pyRound_le (n : ℤ) (q : ℚ) (h : q ≤ (n : ℚ)) : pyRound q ≤ n := by
  have hf : ⌊q⌋ ≤ n := by
    have := Int.floor_le_floor h
    rwa [Int.floor_intCast] at this
  rcases lt_or_eq_of_le hf with hlt | heq
  · have := pyRound_le_floor_add_one q
    omega
  · have hq : q = (n : ℚ) := by
      refine le_antisymm h ?_
      rw [← heq]
      exact Int.floor_le q
    rw [hq, pyRound_intCast]

lemma abs_pyRound_sub (q : ℚ) : |(pyRound q : ℚ) - q| ≤ 1/2 := by
  have h0 : (⌊q⌋ : ℚ) ≤ q := Int.floor_le q
  have h1 : q < ⌊q⌋ + 1 := Int.lt_floor_add_one q
  unfold pyRound
  split_ifs with ha hb hc <;> rw [abs_le] <;> constructor <;> push_cast <;> linarith

lemma abs_pyRound1_sub (q : ℚ) : |pyRound1 q - q| ≤ 1/20 := by
  have h := abs_pyRound_sub (q * 10)
  have heq : pyRound1 q - q = ((pyRound (q * 10) : ℚ) - q * 10) / 10 := by
    unfold pyRound1
    ring
  rw [heq, abs_div]
  rw [show |(10:ℚ)| = 10 by norm_num]
  linarith

lemma pyRound1_half (k : ℤ) : pyRound1 ((k : ℚ) / 2) = (k : ℚ) / 2 := by
  unfold pyRound1
  rw [show (k : ℚ) / 2 * 10 = ((5 * k : ℤ) : ℚ) by push_cast; ring,
    pyRound_intCast]
  push_cast
  ring

lemma max_zero_pyRound (q : ℚ) (h : q ≤ 100) :
    max 0 (pyRound q) = pyRound (min 100 (max 0 q)) := by
  rcases le_or_lt 0 q with hq | hq
  · rw [max_eq_right hq, min_eq_right h, max_eq_right]
    exact le_pyRound 0 q (by exact_mod_cast hq)
  · rw [max_eq_left hq.le, min_eq_right (by norm_num : (0:ℚ) ≤ 100), pyRound_zero,
      max_eq_left]
    exact pyRound_le 0 q (by exact_mod_cast hq.le)

lemma clamp_nonneg (x : ℚ) : 0 ≤ min 100 (max 0 x) :=
  le_min (by norm_num) (le_max_left 0 x)

lemma clamp_le_hundred (x : ℚ) : min 100 (max 0 x) ≤ 100 := min_le_left _ _

/-- Multiples of one half, closed under the operations forming the
consistency adjustment; `round(·, 1)` is exact on them. -/
def IsHalfInt (q : ℚ) : Prop := ∃ k : ℤ, q = (k : ℚ) / 2

lemma IsHalfInt.add {a b : ℚ} (ha : IsHalfInt a) (hb : IsHalfInt b) :
    IsHalfInt (a + b) := by
  obtain ⟨j, hj⟩ := ha
  obtain ⟨k, hk⟩ := hb
  exact ⟨j + k, by rw [hj, hk]; push_cast; ring⟩

lemma IsHalfInt.meet {a b : ℚ} (ha : IsHalfInt a) (hb : IsHalfInt b) :
    IsHalfInt (min a b) := by
  obtain ⟨j, hj⟩ := ha
  obtain ⟨k, hk⟩ := hb
  refine ⟨min j k, ?_⟩
  rw [hj, hk, min_div_div_right (by norm_num : (0:ℚ) ≤ 2)]
  norm_cast

lemma pyRound1_of_halfInt {q : ℚ} (h : IsHalfInt q) : pyRound1 q = q := by
  obtain ⟨k, hk⟩ := h
  rw [hk, pyRound1_half]

lemma pyRound1_zero : pyRound1 0 = 0 := by
  unfold pyRound1
  norm_num [pyRound_zero]

lemma pyRound2_zero : pyRound2 0 = 0 := by
  unfold pyRound2
  norm_num [pyRound_zero]

lemma fitAdjustment_nonneg (bc : ConsistencyCounters) : 0 ≤ fitAdjustment bc := by
  unfold fitAdjustment
  have h1 : (0:ℚ) ≤ min 3 ((bc.focus_loss_count : ℚ) * (1/2)) :=
    le_min (by norm_num) (by positivity)
  have h2 : (0:ℚ) ≤ min 3 ((bc.paste_count : ℚ) * (3/2)) :=
    le_min (by norm_num) (by positivity)
  have h3 : (0:ℚ) ≤ min 2 ((bc.copy_count : ℚ) * 2) :=
    le_min (by norm_num) (by positivity)
  have h4 : (0:ℚ) ≤ min 2 ((bc.long_idle_count : ℚ) * (1/2)) :=
    le_min (by norm_num) (by positivity)
  exact le_min (by norm_num) (by linarith)

lemma fitAdjustment_halfInt (bc : ConsistencyCounters) :
    IsHalfInt (fitAdjustment bc) := by
  unfold fitAdjustment
  have h1 : IsHalfInt ((bc.focus_loss_count : ℚ) * (1/2)) :=
    ⟨bc.focus_loss_count, by push_cast; ring⟩
  have h2 : IsHalfInt ((bc.paste_count : ℚ) * (3/2)) :=
    ⟨3 * bc.paste_count, by push_cast; ring⟩
  have h3 : IsHalfInt ((bc.copy_count : ℚ) * 2) :=
    ⟨4 * bc.copy_count, by push_cast; ring⟩
  have h4 : IsHalfInt ((bc.long_idle_count : ℚ) * (1/2)) :=
    ⟨bc.long_idle_count, by push_cast; ring⟩
  have c3 : IsHalfInt (3 : ℚ) := ⟨6, by norm_num⟩
  have c2 : IsHalfInt (2 : ℚ) := ⟨4, by norm_num⟩
  have c10 : IsHalfInt (10 : ℚ) := ⟨20, by norm_num⟩
  exact c10.meet ((((c3.meet h1).add (c3.meet h2)).add (c2.meet h3)).add (c2.meet h4))

/- ----------------------------------------------------------------------
   Claim theorems.
   ---------------------------------------------------------------------- -/

/-- Concrete input refuting C1 as stated: two completed, correct tasks
against `total_tasks = 1` (completion rate 200%). -/
def c1pt : List TaskMetric :=
  [{ is_completed := true, is_correct := true },
   { is_completed := true, is_correct := true }]

/-- C1 (counterexample): the claimed formula applies no clamp to
`TaskScore`, but the source clamps it to [0,100] before weighting.  With
two completed correct tasks and `total_tasks = 1`, the source returns
51 while the claimed `round(clamp(0.30·TaskScore + …, 0, 100))` is 63. -/
theorem c1_fit_formula_cex :
    (computeOverallFitScore c1pt {} {} {} {} 1).score = 51 ∧
    pyRound (min 100 (max 0 (specTaskScore c1pt 1 * (30/100)
      + fitBehavioralScore c1pt {} * (35/100) + fitSkillScore {} * (25/100)
      + fitResumeAlignment {} * (10/100) - specAdjustment {}))) = 63 ∧
    (computeOverallFitScore c1pt {} {} {} {} 1).score ≠
      pyRound (min 100 (max 0 (specTaskScore c1pt 1 * (30/100)
        + fitBehavioralScore c1pt {} * (35/100) + fitSkillScore {} * (25/100)
        + fitResumeAlignment {} * (10/100) - specAdjustment {}))) := by
  have ht : fitTaskScore c1pt 1 = 100 := by norm_num [fitTaskScore, c1pt, List.filter]
  have hst : specTaskScore c1pt 1 = 140 := by norm_num [specTaskScore, c1pt, List.filter]
  have hb : fitBehavioralScore c1pt {} = 60 := by
    norm_num [fitBehavioralScore, c1pt, List.filter]
  have hs : fitSkillScore {} = 0 := by norm_num [fitSkillScore]
  have hr : fitResumeAlignment {} = 0 := by norm_num [fitResumeAlignment]
  have ha : specAdjustment {} = 0 := by norm_num [specAdjustment]
  have ha' : fitAdjustment {} = 0 := ha
  have h51 : pyRound (51:ℚ) = 51 := by
    have := pyRound_intCast 51
    norm_num at this
    exact this
  have h63 : pyRound (63:ℚ) = 63 := by
    have := pyRound_intCast 63
    norm_num at this
    exact this
  have e1 : (computeOverallFitScore c1pt {} {} {} {} 1).score = 51 := by
    simp only [computeOverallFitScore, ht, hb, hs, hr, ha']
    norm_num [h51]
  have e2 : pyRound (min 100 (max 0 (specTaskScore c1pt 1 * (30/100)
      + fitBehavioralScore c1pt {} * (35/100) + fitSkillScore {} * (25/100)
      + fitResumeAlignment {} * (10/100) - specAdjustment {}))) = 63 := by
    rw [hst, hb, hs, hr, ha]
    norm_num [h63]
  exact ⟨e1, e2, by rw [e1, e2]; omega⟩

/-- C1 (amended): for every input, the returned score equals
`round(clamp(0.30·clamp(TaskScore,0,100) + 0.35·BehavioralScore +
0.25·SkillScore + 0.10·ResumeAlignment − ConsistencyAdjustment, 0, 100))`
— i.e. the claim holds once `TaskScore` is clamped to [0,100] as the
source does — and the grade follows the S/A/B/C/D bands of the claim. -/
theorem c1_fit_formula_amended (pt : List TaskMetric) (agg : AggregateMetrics)
    (sp : SkillScores) (r : ResumeComparison) (bc : ConsistencyCounters) (tt : ℕ) :
    (computeOverallFitScore pt agg sp r bc tt).score =
      pyRound (min 100 (max 0
        (min 100 (max 0 (specTaskScore pt tt)) * (30/100)
          + fitBehavioralScore pt agg * (35/100)
          + fitSkillScore sp * (25/100)
          + fitResumeAlignment r * (10/100)
          - specAdjustment bc)))
    ∧ (computeOverallFitScore pt agg sp r bc tt).grade
        = specGrade (computeOverallFitScore pt agg sp r bc tt).score := by
  have hscore : (computeOverallFitScore pt agg sp r bc tt).score =
      max 0 (pyRound (fitTaskScore pt tt * (30/100)
        + fitBehavioralScore pt agg * (35/100) + fitSkillScore sp * (25/100)
        + fitResumeAlignment r * (10/100) - fitAdjustment bc)) := rfl
  have htask : fitTaskScore pt tt = min 100 (max 0 (specTaskScore pt tt)) := rfl
  have hadj : fitAdjustment bc = specAdjustment bc := rfl
  have hT : fitTaskScore pt tt ≤ 100 := clamp_le_hundred _
  have hB : fitBehavioralScore pt agg ≤ 100 := clamp_le_hundred _
  have hS : fitSkillScore sp ≤ 100 := clamp_le_hundred _
  have hR : fitResumeAlignment r ≤ 100 := clamp_le_hundred _
  have hT0 : 0 ≤ fitTaskScore pt tt := clamp_nonneg _
  have hB0 : 0 ≤ fitBehavioralScore pt agg := clamp_nonneg _
  have hS0 : 0 ≤ fitSkillScore sp := clamp_nonneg _
  have hR0 : 0 ≤ fitResumeAlignment r := clamp_nonneg _
  have hA0 : 0 ≤ fitAdjustment bc := fitAdjustment_nonneg bc
  have hle : fitTaskScore pt tt * (30/100) + fitBehavioralScore pt agg * (35/100)
      + fitSkillScore sp * (25/100) + fitResumeAlignment r * (10/100)
      - fitAdjustment bc ≤ 100 := by linarith
  refine ⟨?_, rfl⟩
  rw [hscore, max_zero_pyRound _ hle, htask, hadj]

/-- Failing input for C2: two completed tasks with zero decision
changes. -/
def c2pt : List TaskMetric :=
  [{ is_completed := true, is_correct := true },
   { is_completed := true, is_correct := true }]

/-- C2 (code bug): `_compute_overall_fit_score` reads
`aggregate_metrics.get("decision_firmness", 0)`, but
`_compute_aggregate_metrics` never writes that key, so the firmness term
of the behavioral score is always 0 in the pipeline.  With two completed
zero-change tasks the spec firmness is 100 and its behavioral score
100, while the source computes a behavioral score of 60 (the 0.4-weighted
firmness term silently vanishes). -/
theorem c2_decision_firmness_code_bug :
    (∀ (pt : List TaskMetric) (t : ℚ),
      (computeAggregateMetrics pt t).decision_firmness = none) ∧
    fitBehavioralScore c2pt (computeAggregateMetrics c2pt 60) = 60 ∧
    specBehavioralScore c2pt (computeAggregateMetrics c2pt 60) = 100 ∧
    specDecisionFirmness c2pt = 100 := by
  have hnone : ∀ (pt : List TaskMetric) (t : ℚ),
      (computeAggregateMetrics pt t).decision_firmness = none := by
    intro pt t
    unfold computeAggregateMetrics
    split <;> rfl
  have hagg : computeAggregateMetrics c2pt 60 =
      { total_time_seconds := 60, tasks_completed := 2 } := by
    unfold computeAggregateMetrics
    rw [if_neg (by simp [c2pt])]
    norm_num [c2pt, List.filter, pyRound1_zero, pyRound2_zero]
  refine ⟨hnone, ?_, ?_, ?_⟩
  · rw [hagg]
    norm_num [fitBehavioralScore, c2pt, List.filter]
  · rw [hagg]
    norm_num [specBehavioralScore, specDecisionFirmness, completedCount, c2pt,
      List.filter]
  · norm_num [specDecisionFirmness, completedCount, c2pt, List.filter]

/-- Aggregate-metrics input for the C3 counterexample: enough decision
changes and idle level to zero the behavioral score. -/
def c3agg : AggregateMetrics := { total_changes := 7, idle_time_level := 100 }

/-- Counters for the C3 counterexample driving the adjustment to its
cap of 10. -/
def c3bc : ConsistencyCounters :=
  { focus_loss_count := 6, paste_count := 2, copy_count := 1, long_idle_count := 4 }

/-- C3 (counterexample): when the weighted components sum to less than
the consistency adjustment, the returned score is floored at 0 but the
breakdown is not: with every component 0 and adjustment 10 the
contributions plus the adjustment value sum to −10 while the score is 0,
off by 10 — the claimed ±1 round-trip fails. -/
theorem c3_roundtrip_cex :
    breakdownSum (computeOverallFitScore [] c3agg {} {} c3bc 0).breakdown = -10 ∧
    (computeOverallFitScore [] c3agg {} {} c3bc 0).score = 0 ∧
    ¬ (|breakdownSum (computeOverallFitScore [] c3agg {} {} c3bc 0).breakdown
        - ((computeOverallFitScore [] c3agg {} {} c3bc 0).score : ℚ)| ≤ 1) := by
  have ht : fitTaskScore [] 0 = 0 := by norm_num [fitTaskScore, List.filter]
  have hb : fitBehavioralScore [] c3agg = 0 := by
    norm_num [fitBehavioralScore, c3agg, List.filter]
  have hs : fitSkillScore {} = 0 := by norm_num [fitSkillScore]
  have hr : fitResumeAlignment {} = 0 := by norm_num [fitResumeAlignment]
  have ha : fitAdjustment c3bc = 10 := by norm_num [fitAdjustment, c3bc]
  have hm10 : pyRound (-10 : ℚ) = -10 := by
    have := pyRound_intCast (-10)
    norm_num at this
    exact this
  have hp10 : pyRound1 (10 : ℚ) = 10 :=
    pyRound1_of_halfInt ⟨20, by norm_num⟩
  have e1 : breakdownSum (computeOverallFitScore [] c3agg {} {} c3bc 0).breakdown
      = -10 := by
    simp only [computeOverallFitScore, breakdownSum, ht, hb, hs, hr, ha]
    norm_num [pyRound1_zero, hp10]
  have e2 : (computeOverallFitScore [] c3agg {} {} c3bc 0).score = 0 := by
    simp only [computeOverallFitScore, ht, hb, hs, hr, ha]
    norm_num [hm10]
  refine ⟨e1, e2, ?_⟩
  rw [e1, e2]
  norm_num

/-- C3 (amended): the round-trip holds once the re-derived sum is floored
at 0 exactly as the source floors the score: for every input,
`max(0, Σ contributions + adjustment_value)` reproduces the returned
score within ±1. -/
theorem c3_roundtrip_amended (pt : List TaskMetric) (agg : AggregateMetrics)
    (sp : SkillScores) (r : ResumeComparison) (bc : ConsistencyCounters) (tt : ℕ) :
    |max 0 (breakdownSum (computeOverallFitScore pt agg sp r bc tt).breakdown)
      - ((computeOverallFitScore pt agg sp r bc tt).score : ℚ)| ≤ 1 := by
  have hbd : breakdownSum (computeOverallFitScore pt agg sp r bc tt).breakdown =
      pyRound1 (fitTaskScore pt tt * (30/100))
      + pyRound1 (fitBehavioralScore pt agg * (35/100))
      + pyRound1 (fitSkillScore sp * (25/100))
      + pyRound1 (fitResumeAlignment r * (10/100))
      + -(pyRound1 (fitAdjustment bc)) := rfl
  have hsc : (computeOverallFitScore pt agg sp r bc tt).score =
      max 0 (pyRound (fitTaskScore pt tt * (30/100)
        + fitBehavioralScore pt agg * (35/100) + fitSkillScore sp * (25/100)
        + fitResumeAlignment r * (10/100) - fitAdjustment bc)) := rfl
  have hA : pyRound1 (fitAdjustment bc) = fitAdjustment bc :=
    pyRound1_of_halfInt (fitAdjustment_halfInt bc)
  rw [hbd, hsc, hA]
  have e1 := abs_pyRound1_sub (fitTaskScore pt tt * (30/100))
  have e2 := abs_pyRound1_sub (fitBehavioralScore pt agg * (35/100))
  have e3 := abs_pyRound1_sub (fitSkillScore sp * (25/100))
  have e4 := abs_pyRound1_sub (fitResumeAlignment r * (10/100))
  set w1 := fitTaskScore pt tt * (30/100)
  set w2 := fitBehavioralScore pt agg * (35/100)
  set w3 := fitSkillScore sp * (25/100)
  set w4 := fitResumeAlignment r * (10/100)
  set A := fitAdjustment bc
  set y := w1 + w2 + w3 + w4 - A with hy
  set sigma := pyRound1 w1 + pyRound1 w2 + pyRound1 w3 + pyRound1 w4 + -A with hsig
  have hsum : |sigma - y| ≤ 1/5 := by
    rw [abs_le] at e1 e2 e3 e4 ⊢
    constructor <;> simp only [hsig, hy] <;> linarith [e1.1, e1.2, e2.1, e2.2]
  have hrnd : |y - (pyRound y : ℚ)| ≤ 1/2 := by
    rw [abs_sub_comm]
    exact abs_pyRound_sub y
  have htri : |sigma - (pyRound y : ℚ)| ≤ 7/10 := by
    have := abs_sub_le sigma y ((pyRound y : ℚ))
    linarith
  have hmax : |max 0 sigma - max 0 ((pyRound y : ℚ))| ≤ |sigma - (pyRound y : ℚ)| := by
    have := abs_max_sub_max_le_abs sigma ((pyRound y : ℚ)) 0
    simpa [max_comm] using this
  have hcast : ((max 0 (pyRound y) : ℤ) : ℚ) = max 0 ((pyRound y : ℚ)) := by
    push_cast
    rfl
  rw [hcast]
  linarith

lemma foldr_max_range' (s n : ℕ) :
    (List.range' s n).foldr max 0 = if n = 0 then 0 else s + n - 1 := by
  induction n generalizing s with
  | zero => simp
  | succ n ih =>
    rw [List.range'_succ s n 1, List.foldr_cons, ih (s + 1)]
    rcases Nat.eq_zero_or_pos n with hn | hn
    · subst hn; simp
    · rw [if_neg (by omega), if_neg (by omega)]
      omega

lemma range'_one_concat (n : ℕ) :
    List.range' 1 (n + 1) = List.range' 1 n ++ [n + 1] := by
  have h : List.range' 1 (n + 1) 1 = List.range' 1 n 1 ++ [1 + 1 * n] :=
    List.range'_concat 1 n
  rw [show 1 + 1 * n = n + 1 by omega] at h
  exact h

/-- C4: a successful `log_event` assigns the maximum existing sequence
number for the attempt plus one (1 when none exist), appends exactly that
event, and therefore grows a gap-free 1..n sequence to 1..n+1 — strictly
increasing by exactly 1 per append, without duplicates or gaps. -/
theorem c4_monotonic_sequencing (s : Store) (aid : String) (e : EventCreate)
    (ev : EventRec) (s' : Store) (h : logEvent s aid e = .ok (ev, s')) :
    ev.sequence_number = (attemptSeqs s aid).foldr max 0 + 1 ∧
    attemptSeqs s' aid = attemptSeqs s aid ++ [ev.sequence_number] ∧
    ∀ n, attemptSeqs s aid = List.range' 1 n →
      attemptSeqs s' aid = List.range' 1 (n + 1) := by
  unfold logEvent at h
  cases hl : s.attempts.lookup aid with
  | none =>
    rw [hl] at h
    simp only [reduceCtorEq] at h
  | some a =>
    rw [hl] at h
    dsimp only at h
    split_ifs at h with h1 h2
    all_goals simp only [reduceCtorEq, Except.ok.injEq, Prod.mk.injEq] at h
    obtain ⟨hev, hs'⟩ := h
    have hseq : ev.sequence_number = (attemptSeqs s aid).foldr max 0 + 1 := by
      rw [← hev]
      cases hc : attemptSeqs s aid with
      | nil => simp [hc]
      | cons x xs => simp [hc]
    have happ : attemptSeqs s' aid = attemptSeqs s aid ++ [ev.sequence_number] := by
      rw [← hs', ← hev]
      unfold attemptSeqs
      simp [List.filter_append]
    refine ⟨hseq, happ, ?_⟩
    intro n hn
    rw [happ, hn, hseq, hn, foldr_max_range', range'_one_concat]
    rcases Nat.eq_zero_or_pos n with h0 | h0
    · subst h0; simp
    · rw [if_neg (by omega)]
      have : 1 + n - 1 + 1 = n + 1 := by omega
      rw [this]

/-- Store for the C4 witness: one in-progress attempt, no events yet. -/
def c4store : Store :=
  { attempts := [("a1", { status := .in_progress, task_ids := ["t1"] })],
    events := [] }

/-- C4 witness: the first logged event of the fresh attempt receives
sequence number 0+1 = 1 and the stored sequence list becomes [1]. -/
theorem c4_monotonic_sequencing_witness :
    ∃ ev s', logEvent c4store "a1" ⟨"t1", .task_started⟩ = .ok (ev, s') ∧
      ev.sequence_number = (attemptSeqs c4store "a1").foldr max 0 + 1 ∧
      attemptSeqs s' "a1" = List.range' 1 1 := by
  have h : logEvent c4store "a1" ⟨"t1", .task_started⟩ =
      .ok (⟨"a1", "t1", .task_started, 1⟩,
        { attempts := c4store.attempts,
          events := [⟨"a1", "t1", .task_started, 1⟩] }) := by rfl
  obtain ⟨h1, _, h3⟩ := c4_monotonic_sequencing _ _ _ _ _ h
  exact ⟨_, _, h, h1, h3 0 rfl⟩

/-- C5: `log_event` fails with `AttemptNotFound` iff the attempt is
missing, with `AttemptLocked` iff it exists with a status other than
`in_progress`, with `InvalidEvent` iff the task is not in the attempt;
in every other case it succeeds and appends the event to the store —
in particular it succeeds even when the event type is not among the
`VALID_TRANSITIONS` followers of the last event of the task. -/
theorem c5_log_event_failure_modes (s : Store) (aid : String) (e : EventCreate) :
    (logEvent s aid e = .error .attemptNotFound ↔ s.attempts.lookup aid = none) ∧
    (logEvent s aid e = .error .attemptLocked ↔
      ∃ a, s.attempts.lookup aid = some a ∧ a.status ≠ .in_progress) ∧
    (logEvent s aid e = .error .invalidEvent ↔
      ∃ a, s.attempts.lookup aid = some a ∧ a.status = .in_progress ∧
        e.task_id ∉ a.task_ids) ∧
    (∀ a, s.attempts.lookup aid = some a → a.status = .in_progress →
      e.task_id ∈ a.task_ids →
      ∃ ev, logEvent s aid e = .ok (ev, { s with events := s.events ++ [ev] }) ∧
        ev.attempt_id = aid ∧ ev.task_id = e.task_id ∧
        ev.event_type = e.event_type) ∧
    (∀ a, s.attempts.lookup aid = some a → a.status = .in_progress →
      e.task_id ∈ a.task_ids →
      e.event_type ∉ validTransitions (lastEventType s aid e.task_id) →
      ∃ ev, logEvent s aid e = .ok (ev, { s with events := s.events ++ [ev] })) := by
  cases hl : s.attempts.lookup aid with
  | none =>
    have hred : logEvent s aid e = .error .attemptNotFound := by
      unfold logEvent
      rw [hl]
    refine ⟨iff_of_true hred rfl, ?_, ?_, ?_, ?_⟩
    · refine iff_of_false (by simp [hred]) ?_
      rintro ⟨a, ha, -⟩
      cases ha
    · refine iff_of_false (by simp [hred]) ?_
      rintro ⟨a, ha, -, -⟩
      cases ha
    · intro a ha
      cases ha
    · intro a ha
      cases ha
  | some a =>
    by_cases hst : a.status = .in_progress
    · by_cases htk : e.task_id ∈ a.task_ids
      · obtain ⟨ev, hok, hfld⟩ :
            ∃ ev, logEvent s aid e =
                .ok (ev, { s with events := s.events ++ [ev] }) ∧
              ev.attempt_id = aid ∧ ev.task_id = e.task_id ∧
              ev.event_type = e.event_type := by
          refine ⟨⟨aid, e.task_id, e.event_type,
            match attemptSeqs s aid with
            | [] => 1
            | _ => (attemptSeqs s aid).foldr max 0 + 1⟩, ?_, rfl, rfl, rfl⟩
          unfold logEvent
          rw [hl]
          dsimp only
          rw [if_neg (by simp [hst]), if_neg (by simp [htk])]
        refine ⟨iff_of_false (by simp [hok]) (by simp), ?_, ?_, ?_, ?_⟩
        · refine iff_of_false (by simp [hok]) ?_
          rintro ⟨a', ha', hne⟩
          injection ha' with haa
          subst haa
          exact hne hst
        · refine iff_of_false (by simp [hok]) ?_
          rintro ⟨a', ha', -, hnotin⟩
          injection ha' with haa
          subst haa
          exact hnotin htk
        · intro a' ha' _ _
          exact ⟨ev, hok, hfld⟩
        · intro a' ha' _ _ _
          exact ⟨ev, hok⟩
      · have hred : logEvent s aid e = .error .invalidEvent := by
          unfold logEvent
          rw [hl]
          dsimp only
          rw [if_neg (by simp [hst]), if_pos htk]
        refine ⟨iff_of_false (by simp [hred]) (by simp), ?_,
          iff_of_true hred ⟨a, rfl, hst, htk⟩, ?_, ?_⟩
        · refine iff_of_false (by simp [hred]) ?_
          rintro ⟨a', ha', hne⟩
          injection ha' with haa
          subst haa
          exact hne hst
        · intro a' ha' _ hmem
          injection ha' with haa
          subst haa
          exact absurd hmem htk
        · intro a' ha' _ hmem _
          injection ha' with haa
          subst haa
          exact absurd hmem htk
    · have hred : logEvent s aid e = .error .attemptLocked := by
        unfold logEvent
        rw [hl]
        dsimp only
        rw [if_pos hst]
      refine ⟨iff_of_false (by simp [hred]) (by simp),
        iff_of_true hred ⟨a, rfl, hst⟩, ?_, ?_, ?_⟩
      · refine iff_of_false (by simp [hred]) ?_
        rintro ⟨a', ha', hprog, -⟩
        injection ha' with haa
        subst haa
        exact hst hprog
      · intro a' ha' hprog _
        injection ha' with haa
        subst haa
        exact absurd hprog hst
      · intro a' ha' hprog _ _
        injection ha' with haa
        subst haa
        exact absurd hprog hst

/-- Store for the C5 witness: the last event of the task is `TASK_COMPLETED`,
whose only permitted follower is `TASK_STARTED`. -/
def c5store : Store :=
  { attempts := [("a1", { status := .in_progress, task_ids := ["t1"] })],
    events := [⟨"a1", "t1", .task_completed, 1⟩] }

/-- C5 witness: an `OPTION_SELECTED` event after `TASK_COMPLETED`
violates the transition table yet is logged successfully. -/
theorem c5_log_event_failure_modes_witness :
    (⟨"t1", EventType.option_selected⟩ : EventCreate).event_type ∉
      validTransitions (lastEventType c5store "a1" "t1") ∧
    ∃ ev, logEvent c5store "a1" ⟨"t1", .option_selected⟩ =
      .ok (ev, { c5store with events := c5store.events ++ [ev] }) := by
  refine ⟨by decide, ?_⟩
  exact (c5_log_event_failure_modes c5store "a1" ⟨"t1", .option_selected⟩).2.2.2.2
    { status := .in_progress, task_ids := ["t1"] } rfl rfl (by decide) (by decide)

/-- C6 counterexample input: two per-task entries, neither completed. -/
def c6pt : List TaskMetric := [{}, {}]

/-- C6 (counterexample): `compute_behavioral_consistency` gates its
`insufficient_data` branch on the number of per-task ENTRIES, not on
completed tasks.  With two entries and zero completed tasks it runs the
checks, fires the rapid-commitment flag (all zero changes) and returns
score 90 with a non-empty flag list — not the claimed score 100 /
`insufficient_data` / no flags. -/
theorem c6_no_data_honesty_cex :
    completedCount c6pt = 0 ∧
    (computeBehavioralConsistency c6pt {}).score = 90 ∧
    (computeBehavioralConsistency c6pt {}).flags ≠ [] ∧
    (computeBehavioralConsistency c6pt {}).status ≠ "insufficient_data" := by
  have hres : computeBehavioralConsistency c6pt {} =
      { score := 90, flags := [⟨"rapid_commitment_pattern", "low", 10⟩],
        status := "consistent_with_independent_work", total_adjustments := 10 } := by
    have hA : flagsCheckA {} = [] := by norm_num [flagsCheckA]
    have hB : flagsCheckB {} = [] := by norm_num [flagsCheckB]
    have hC : flagsCheckC {} = [] := by norm_num [flagsCheckC]
    have h1 : flagsCheck1 c6pt = [] := by norm_num [flagsCheck1, c6pt, List.filter]
    have h2 : flagsCheck2 c6pt = [⟨"rapid_commitment_pattern", "low", 10⟩] := by
      norm_num [flagsCheck2, c6pt]
    have h3 : flagsCheck3 = [] := by norm_num [flagsCheck3]
    have h4 : flagsCheck4 c6pt = [] := by norm_num [flagsCheck4, c6pt, List.filter]
    have h5 : flagsCheck5 c6pt = [] := by
      norm_num [flagsCheck5, c6pt, List.filterMap]
    unfold computeBehavioralConsistency
    rw [if_neg (by norm_num [c6pt])]
    simp only [consistencyFlags, hA, hB, hC, h1, h2, h3, h4, h5]
    norm_num
  refine ⟨by decide, ?_, ?_, ?_⟩ <;> rw [hres]
  · simp
  · decide

/-- C6 (amended): the `insufficient_data` guard triggers on fewer than 2
per-task metric ENTRIES (score 100, no flags); separately, with zero
completed tasks the live pipeline returns the all-zero skill profile
rather than calling the skill engine. -/
theorem c6_no_data_honesty_amended :
    (∀ (pt : List TaskMetric) (ac : ConsistencyCounters), pt.length < 2 →
      (computeBehavioralConsistency pt ac).score = 100 ∧
      (computeBehavioralConsistency pt ac).flags = [] ∧
      (computeBehavioralConsistency pt ac).status = "insufficient_data") ∧
    (∀ (pt : List TaskMetric) (t : ℚ), completedCount pt = 0 →
      liveSkillProfile (computeAggregateMetrics pt t) pt = ⟨0, 0, 0, 0, 0⟩) := by
  constructor
  · intro pt ac h
    unfold computeBehavioralConsistency
    rw [if_pos h]
    exact ⟨rfl, rfl, rfl⟩
  · intro pt t h
    have htc : (computeAggregateMetrics pt t).tasks_completed = 0 := by
      unfold computeAggregateMetrics
      split
      · rfl
      · exact h
    unfold liveSkillProfile
    rw [htc, if_neg (lt_irrefl 0)]

/-- C6 witness: the amended guard at the empty list, and the zero-profile
branch at the two-entry zero-completed input. -/
theorem c6_no_data_honesty_amended_witness :
    ((computeBehavioralConsistency [] {}).score = 100 ∧
      (computeBehavioralConsistency [] {}).flags = [] ∧
      (computeBehavioralConsistency [] {}).status = "insufficient_data") ∧
    liveSkillProfile (computeAggregateMetrics c6pt 0) c6pt = ⟨0, 0, 0, 0, 0⟩ := by
  constructor
  · exact c6_no_data_honesty_amended.1 [] {} (by decide)
  · exact c6_no_data_honesty_amended.2 c6pt 0 (by decide)

/-- C7 scenario input: 3 completed tasks, zero decision changes,
first-selection times 4.1 s / 4.3 s / 3.9 s (the tasks were completed
immediately after selection, so the per-task total and idle times equal
the selection times), explanations of 8 words each. -/
def c7pt : List TaskMetric :=
  [{ time_spent_seconds := 41/10, idle_time_seconds := 41/10,
     initial_selection_seconds := 41/10, explanation_word_count := 8,
     observed_pattern := some .direct, is_completed := true, is_correct := true },
   { time_spent_seconds := 43/10, idle_time_seconds := 43/10,
     initial_selection_seconds := 43/10, explanation_word_count := 8,
     observed_pattern := some .direct, is_completed := true, is_correct := true },
   { time_spent_seconds := 39/10, idle_time_seconds := 39/10,
     initial_selection_seconds := 39/10, explanation_word_count := 8,
     observed_pattern := some .direct, is_completed := true, is_correct := true }]

/-- C7: on the scenario input the analyzer flags exactly
`low_timing_variation` (the times vary by under 10%) and
`rapid_commitment_pattern` (zero revisions), deducts 8 + 10 = 18 and
returns score 82.  The uniform 8-word explanations trigger no deduction:
the uniform-length check reads a key produced metrics never carry. -/
theorem c7_consistency_scenario :
    (computeBehavioralConsistency c7pt {}).score = 82 ∧
    (computeBehavioralConsistency c7pt {}).total_adjustments = 18 ∧
    (computeBehavioralConsistency c7pt {}).flags.map (·.flag) =
      ["low_timing_variation", "rapid_commitment_pattern"] ∧
    (computeBehavioralConsistency c7pt {}).status = "some_observations_noted" := by
  have hres : computeBehavioralConsistency c7pt {} =
      { score := 82,
        flags := [⟨"low_timing_variation", "low", 8⟩,
                  ⟨"rapid_commitment_pattern", "low", 10⟩],
        status := "some_observations_noted", total_adjustments := 18 } := by
    have hA : flagsCheckA {} = [] := by norm_num [flagsCheckA]
    have hB : flagsCheckB {} = [] := by norm_num [flagsCheckB]
    have hC : flagsCheckC {} = [] := by norm_num [flagsCheckC]
    have h1 : flagsCheck1 c7pt = [⟨"low_timing_variation", "low", 8⟩] := by
      norm_num [flagsCheck1, c7pt, List.filter, cvBelowTenPercent]
    have h2 : flagsCheck2 c7pt = [⟨"rapid_commitment_pattern", "low", 10⟩] := by
      norm_num [flagsCheck2, c7pt]
    have h3 : flagsCheck3 = [] := by norm_num [flagsCheck3]
    have h4 : flagsCheck4 c7pt = [] := by
      norm_num [flagsCheck4, c7pt, List.filter, alignedTo, pyMod]
    have h5 : flagsCheck5 c7pt = [] := by
      norm_num [flagsCheck5, c7pt, List.filterMap]
    unfold computeBehavioralConsistency
    rw [if_neg (by norm_num [c7pt])]
    simp only [consistencyFlags, hA, hB, hC, h1, h2, h3, h4, h5]
    norm_num
  exact ⟨by rw [hres], by rw [hres], by rw [hres]; rfl, by rw [hres]⟩

/-- C8: `get_percentile` returns `None` whenever the stored count is
below 10 (or no record exists), regardless of the value; for any
well-formed record (as maintained by `update_population_stats`) with
count ≥ 10 it returns a concrete integer percentile in [0,100]; and
well-formedness is preserved by the insert and update operations. -/
theorem c8_percentile_gate :
    (∀ v : ℚ, getPercentile none v = none) ∧
    (∀ (s : PopStat) (v : ℚ), s.count < 10 → getPercentile (some s) v = none) ∧
    (∀ (s : PopStat) (v : ℚ), s.wellFormed → 10 ≤ s.count →
      ∃ p, getPercentile (some s) v = some p ∧ 0 ≤ p ∧ p ≤ 100) ∧
    (∀ x : ℚ, (PopStat.init x).wellFormed) ∧
    (∀ (s : PopStat) (x : ℚ), s.wellFormed → (s.update x).wellFormed) := by
  refine ⟨fun v => rfl, ?_, ?_, ?_, ?_⟩
  · intro s v h
    unfold getPercentile
    dsimp only
    rw [if_pos h]
  · rintro s v ⟨-, hlen⟩ h10
    have hne : s.samples ≠ [] := by
      have : 0 < s.samples.length := by omega
      exact List.ne_nil_of_length_pos this
    have hlenpos : 0 < (s.samples.length : ℚ) := by
      have : 0 < s.samples.length := by omega
      exact_mod_cast this
    have hble : ((s.samples.filter (· < v)).length : ℚ) ≤ (s.samples.length : ℚ) := by
      exact_mod_cast List.length_filter_le _ _
    have hbnn : (0:ℚ) ≤ ((s.samples.filter (· < v)).length : ℚ) := by positivity
    have hy0 : (0:ℚ) ≤ ((s.samples.filter (· < v)).length : ℚ) /
        (s.samples.length : ℚ) * 100 := by positivity
    have hy100 : ((s.samples.filter (· < v)).length : ℚ) /
        (s.samples.length : ℚ) * 100 ≤ 100 := by
      have hdiv : ((s.samples.filter (· < v)).length : ℚ) /
          (s.samples.length : ℚ) ≤ 1 := (div_le_one hlenpos).mpr hble
      linarith
    unfold getPercentile
    dsimp only
    rw [if_neg (by omega), if_neg hne]
    refine ⟨_, rfl, ?_, ?_⟩
    · unfold pyTrunc
      rw [if_pos hy0]
      exact Int.floor_nonneg.mpr hy0
    · unfold pyTrunc
      rw [if_pos hy0]
      have := Int.floor_le_floor hy100
      have h100 : ⌊(100:ℚ)⌋ = 100 := by norm_num
      omega
  · intro x
    exact ⟨le_refl 1, by simp [PopStat.init]⟩
  · rintro s x ⟨h1, h2⟩
    unfold PopStat.update PopStat.wellFormed
    dsimp only
    refine ⟨by omega, ?_⟩
    simp only [List.length_append, List.length_singleton]
    split
    · rename_i hgt
      simp only [List.length_drop, List.length_append, List.length_singleton]
      omega
    · rename_i hle
      simp only [List.length_append, List.length_singleton]
      omega

/-- Nine samples recorded for one (metric, recruiter) pair. -/
def c8stat9 : PopStat :=
  ((((((((PopStat.init 1).update 2).update 3).update 4).update 5).update
    6).update 7).update 8).update 9

/-- The tenth sample crosses the minimum-population boundary. -/
def c8stat10 : PopStat := c8stat9.update 10

/-- C8 witness: at 9 samples the percentile is `None`; at the 10th
sample it becomes a concrete integer in [0,100]. -/
theorem c8_percentile_gate_witness :
    getPercentile (some c8stat9) (11/2) = none ∧
    ∃ p, getPercentile (some c8stat10) (11/2) = some p ∧ 0 ≤ p ∧ p ≤ 100 := by
  constructor
  · exact c8_percentile_gate.2.1 c8stat9 (11/2) (by decide)
  · exact c8_percentile_gate.2.2.1 c8stat10 (11/2) (by decide) (by decide)

/-- C9: the behavioral-pattern confidence equals the claimed closed form
(base 25/50/75/min(95, 75+5(n−3)) plus a +10 bonus capped at 95, keyed on
the rounded dominant percentage); a true dominant coverage of at least
70% always triggers the bonus (rounding cannot lower it below 70); for a
fixed dominant percentage the closed form is non-decreasing in the number
of completed tasks; and the confidence never exceeds 95. -/
theorem c9_confidence_growth :
    (∀ pt : List TaskMetric, 1 ≤ completedCount pt →
      summaryConfidence pt =
        specPatternConfidence (completedCount pt) (pyRound (dominantCoveragePct pt))) ∧
    (∀ q : ℚ, 70 ≤ q → 70 ≤ pyRound q) ∧
    (∀ (n m : ℕ) (d : ℤ), 1 ≤ n → n ≤ m →
      specPatternConfidence n d ≤ specPatternConfidence m d) ∧
    (∀ pt : List TaskMetric, summaryConfidence pt ≤ 95) := by
  have hclosed : ∀ (n : ℕ) (d : ℤ), 1 ≤ n →
      (if 70 ≤ d then
        min 95 ((if n = 1 then 25 else if n = 2 then 50 else if n = 3 then 75
          else min 95 (75 + ((n : ℤ) - 3) * 5)) + 10)
      else (if n = 1 then 25 else if n = 2 then 50 else if n = 3 then 75
          else min 95 (75 + ((n : ℤ) - 3) * 5))) = specPatternConfidence n d := by
    intro n d h
    unfold specPatternConfidence
    split_ifs <;> omega
  refine ⟨?_, ?_, ?_, ?_⟩
  · intro pt h
    have h' : 1 ≤ (pt.filter (·.is_completed)).length := h
    have hdom : dominantCoveragePct pt =
        (patternCount (pt.filter (·.is_completed))
            (dominantPattern (pt.filter (·.is_completed))) : ℚ) /
          ((pt.filter (·.is_completed)).length : ℚ) * 100 := by
      unfold dominantCoveragePct
      dsimp only
      rw [if_neg (by omega)]
    unfold summaryConfidence
    dsimp only
    rw [if_neg (by omega), hdom,
      show completedCount pt = (pt.filter (·.is_completed)).length from rfl]
    exact hclosed _ _ h'
  · intro q h
    exact le_pyRound 70 q (by exact_mod_cast h)
  · intro n m d h1 hm
    unfold specPatternConfidence
    split_ifs <;> omega
  · intro pt
    unfold summaryConfidence
    dsimp only
    split_ifs <;> omega

/-- C9 witness input: three completed tasks, two Direct and one
Balanced. -/
def c9pt : List TaskMetric :=
  [{ is_completed := true, observed_pattern := some .direct },
   { is_completed := true, observed_pattern := some .direct },
   { is_completed := true, observed_pattern := some .balanced }]

/-- C9 witness: the closed form at a concrete three-task input, and
monotonicity instantiated at n = 2 ≤ 3. -/
theorem c9_confidence_growth_witness :
    summaryConfidence c9pt =
      specPatternConfidence (completedCount c9pt)
        (pyRound (dominantCoveragePct c9pt)) ∧
    specPatternConfidence 2 100 ≤ specPatternConfidence 3 100 :=
  ⟨c9_confidence_growth.1 c9pt (by decide),
   c9_confidence_growth.2.2.1 2 3 100 (by decide) (by decide)⟩

lemma flag_deduction_nonneg (pt : List TaskMetric) (ac : ConsistencyCounters) :
    ∀ f ∈ consistencyFlags pt ac, 0 ≤ f.deduction := by
  intro f hf
  unfold consistencyFlags at hf
  simp only [List.mem_append] at hf
  rcases hf with ((((((hA | hB) | hC) | h1) | h2) | h3) | h4) | h5
  · unfold flagsCheckA at hA
    split_ifs at hA <;> simp only [List.mem_singleton, List.not_mem_nil] at hA <;>
      (subst hA; exact le_min (by norm_num) (by positivity))
  · unfold flagsCheckB at hB
    split_ifs at hB with hb1 hb2 <;>
      simp only [List.mem_singleton, List.not_mem_nil] at hB <;>
      (subst hB;
       refine le_min (by norm_num) ?_;
       have h3c : (3:ℚ) ≤ (ac.focus_loss_count : ℚ) := by exact_mod_cast hb1.le;
       linarith)
  · unfold flagsCheckC at hC
    split_ifs at hC <;> simp only [List.mem_singleton, List.not_mem_nil] at hC <;>
      (subst hC; exact le_min (by norm_num) (by positivity))
  · unfold flagsCheck1 at h1
    dsimp only at h1
    split_ifs at h1 <;> simp only [List.mem_singleton, List.not_mem_nil] at h1 <;>
      (subst h1; norm_num)
  · unfold flagsCheck2 at h2
    split_ifs at h2 <;> simp only [List.mem_singleton, List.not_mem_nil] at h2 <;>
      (subst h2; norm_num)
  · unfold flagsCheck3 at h3
    dsimp only at h3
    split_ifs at h3 <;> simp only [List.mem_singleton, List.not_mem_nil] at h3 <;>
      (subst h3; norm_num)
  · unfold flagsCheck4 at h4
    dsimp only at h4
    split_ifs at h4 <;> simp only [List.mem_singleton, List.not_mem_nil] at h4 <;>
      (subst h4; norm_num)
  · unfold flagsCheck5 at h5
    dsimp only at h5
    split_ifs at h5 <;> simp only [List.mem_singleton, List.not_mem_nil] at h5 <;>
      (subst h5; norm_num)

lemma consistency_deductions_nonneg (pt : List TaskMetric)
    (ac : ConsistencyCounters) :
    0 ≤ ((consistencyFlags pt ac).map (·.deduction)).sum := by
  apply List.sum_nonneg
  intro x hx
  simp only [List.mem_map] at hx
  obtain ⟨f, hf, rfl⟩ := hx
  exact flag_deduction_nonneg pt ac f hf

/-- C10: every skill-profile axis, the behavioral-consistency score and
the overall fit score lie in [0,100] for every input, including empty or
adversarial per-task metric lists and counters. -/
theorem c10_score_boundedness :
    (∀ (agg : AggregateMetrics) (pt : List TaskMetric),
      (0 ≤ (computeSkillProfile agg pt).task_completion ∧
        (computeSkillProfile agg pt).task_completion ≤ 100) ∧
      (0 ≤ (computeSkillProfile agg pt).selection_speed ∧
        (computeSkillProfile agg pt).selection_speed ≤ 100) ∧
      (0 ≤ (computeSkillProfile agg pt).deliberation_pattern ∧
        (computeSkillProfile agg pt).deliberation_pattern ≤ 100) ∧
      (0 ≤ (computeSkillProfile agg pt).option_exploration ∧
        (computeSkillProfile agg pt).option_exploration ≤ 100) ∧
      (0 ≤ (computeSkillProfile agg pt).risk_preference ∧
        (computeSkillProfile agg pt).risk_preference ≤ 100)) ∧
    (∀ (pt : List TaskMetric) (ac : ConsistencyCounters),
      0 ≤ (computeBehavioralConsistency pt ac).score ∧
      (computeBehavioralConsistency pt ac).score ≤ 100) ∧
    (∀ (pt : List TaskMetric) (agg : AggregateMetrics) (sp : SkillScores)
      (r : ResumeComparison) (bc : ConsistencyCounters) (tt : ℕ),
      0 ≤ (computeOverallFitScore pt agg sp r bc tt).score ∧
      (computeOverallFitScore pt agg sp r bc tt).score ≤ 100) := by
  refine ⟨?_, ?_, ?_⟩
  · intro agg pt
    unfold computeSkillProfile
    split
    · dsimp only
      refine ⟨⟨?_, ?_⟩, ⟨?_, ?_⟩, ⟨?_, ?_⟩, ⟨?_, ?_⟩, ⟨?_, ?_⟩⟩ <;> omega
    · dsimp only
      refine ⟨⟨?_, ?_⟩, ⟨?_, ?_⟩, ⟨?_, ?_⟩, ⟨?_, ?_⟩, ⟨?_, ?_⟩⟩ <;> omega
  · intro pt ac
    unfold computeBehavioralConsistency
    split
    · dsimp only
      norm_num
    · dsimp only
      have hd := consistency_deductions_nonneg pt ac
      constructor
      · exact le_max_left 0 _
      · exact max_le (by norm_num) (by linarith)
  · intro pt agg sp r bc tt
    have hscore : (computeOverallFitScore pt agg sp r bc tt).score =
        max 0 (pyRound (fitTaskScore pt tt * (30/100)
          + fitBehavioralScore pt agg * (35/100) + fitSkillScore sp * (25/100)
          + fitResumeAlignment r * (10/100) - fitAdjustment bc)) := rfl
    have hT : fitTaskScore pt tt ≤ 100 := clamp_le_hundred _
    have hB : fitBehavioralScore pt agg ≤ 100 := clamp_le_hundred _
    have hS : fitSkillScore sp ≤ 100 := clamp_le_hundred _
    have hR : fitResumeAlignment r ≤ 100 := clamp_le_hundred _
    have hA0 : 0 ≤ fitAdjustment bc := fitAdjustment_nonneg bc
    have hle : fitTaskScore pt tt * (30/100) + fitBehavioralScore pt agg * (35/100)
        + fitSkillScore sp * (25/100) + fitResumeAlignment r * (10/100)
        - fitAdjustment bc ≤ 100 := by
      have hT0 : 0 ≤ fitTaskScore pt tt := clamp_nonneg _
      have hB0 : 0 ≤ fitBehavioralScore pt agg := clamp_nonneg _
      have hS0 : 0 ≤ fitSkillScore sp := clamp_nonneg _
      have hR0 : 0 ≤ fitResumeAlignment r := clamp_nonneg _
      linarith
    rw [hscore]
    constructor
    · exact le_max_left 0 _
    · exact max_le (by norm_num) (pyRound_le 100 _ (by exact_mod_cast hle))

end HireMate
